import Mathlib

/-!
Shallow embedding of the stall-detection-and-remediation engine of
`src/main.py` (ArrStalledHandler).  Pure data is modelled directly; the
SQLite tracking table is an explicit optional list of rows (`none` models
a database file in which the table was never created, so that the
`sqlite3.OperationalError` raised by a query against a missing table is an
`Except.error`); the HTTP environment is passed in as functions (the
outcome of each DELETE call, the page responses of the queue endpoint),
and the commands POSTed to the backend are collected as output.
Timestamps are integer seconds (UTC); `elapsed` is `now - first_detected`.
-/

namespace ArrStalled

/-- Substring test on lists of characters: `hasSub pat s` is true iff `pat`
occurs contiguously inside `s`.  Models Python's `pat in s` for strings. -/
def hasSub (pat : List Char) : List Char → Bool
  | [] => pat.isEmpty
  | c :: t => pat.isPrefixOf (c :: t) || hasSub pat t

/-- Python `pat in s` on strings. -/
def strContains (s pat : String) : Bool :=
  hasSub pat.toList s.toList

/-- Python `s.lower()` (ASCII-adequate model; structural so that concrete
instances reduce in the kernel). -/
def lowerStr (s : String) : String :=
  ⟨s.data.map Char.toLower⟩

/-- Python `s.startswith(pre)` (structural counterpart of core
`String.startsWith`, which does not reduce in the kernel). -/
def strStartsWith (s pre : String) : Bool :=
  pre.data.isPrefixOf s.data

/-- Python truthiness of an optional list (`None` and `[]` are falsy). -/
def truthyOptList (o : Option (List Int)) : Bool :=
  match o with
  | some l => !l.isEmpty
  | none => false

/-- Python truthiness of an optional integer (`None` and `0` are falsy). -/
def truthyOptInt (o : Option Int) : Bool :=
  match o with
  | some v => v != 0
  | none => false

/-- One queue record as consumed by `check_queue_and_act`.  `none` in `id`
models a record with no `"id"` key (so `item["id"]` raises `KeyError`);
the other fields model `item.get(...)` lookups, where an absent key is
`none`.  For `episodeId`/`movieId`/`seriesId` a present-but-zero value is
kept representable because the code tests truthiness, not presence. -/
structure QueueItem where
  id : Option Int
  status : Option String
  errorMessage : Option String
  movieId : Option Int
  seriesId : Option Int
  episodeId : Option Int
  episodeIds : Option (List Int)
  deriving DecidableEq, Repr

/-- The classification test of `check_queue_and_act` (src/main.py lines
199-211): in metadata mode, the lower-cased error message must contain
"downloading metadata"; in stalled mode it must contain "stalled" or
"connection", or the raw status must equal "warning". -/
def classify (item : QueueItem) (metadata_check : Bool) : Bool :=
  let error_msg := lowerStr (item.errorMessage.getD "")
  if metadata_check then
    strContains error_msg "downloading metadata"
  else
    strContains error_msg "stalled" || strContains error_msg "connection" ||
      (item.status == some "warning")

/-- The `elif "episodeIds" in item and item["episodeIds"]` fallback of the
episode-id extraction (src/main.py line 225-226). -/
def episodeIds_fallback (item : QueueItem) : Option (List Int) :=
  match item.episodeIds with
  | some l => if l.isEmpty then none else some l
  | none => none

/-- Episode-id extraction of `check_queue_and_act` (src/main.py lines
221-226): a truthy single `episodeId` is wrapped as a one-element list,
else a truthy `episodeIds` list is taken as is, else `none`. -/
def extract_episode_ids (item : QueueItem) : Option (List Int) :=
  match item.episodeId with
  | some e => if e == 0 then episodeIds_fallback item else some [e]
  | none => episodeIds_fallback item

/-- Outcome of the HTTP DELETE issued by `delete_api`: a 200/204 success,
a 404, or any other failure (non-2xx status or request exception). -/
inductive DeleteOutcome where
  | ok
  | notFound404
  | otherError
  deriving DecidableEq, Repr

/-- `delete_api` (src/main.py lines 98-109): returns `True` only on a
2xx response; a 404 is logged and returns `False`, and any other failure
also returns `False`. -/
def delete_api (outcome : DeleteOutcome) : Bool :=
  match outcome with
  | DeleteOutcome.ok => true
  | DeleteOutcome.notFound404 => false
  | DeleteOutcome.otherError => false

/-- A search command POSTed to `/api/{v}/command` by `perform_action`. -/
inductive Command where
  | episodeSearch (episodeIds : List Int)
  | seriesSearch (seriesId : Int)
  | moviesSearch (movieIds : List Int)
  deriving DecidableEq, Repr

/-- `perform_action` (src/main.py lines 137-171): issues the queue delete
and, when the delete call returned `True` (or the action is `REMOVE`),
dispatches the search command for `BLOCKLIST_AND_SEARCH`.  The returned
list is the sequence of commands POSTed. -/
def perform_action (stalled_action : String) (del : DeleteOutcome)
    (service_name : String) (movie_id : Option Int)
    (episode_ids : Option (List Int)) (series_id : Option Int) : List Command :=
  let success := delete_api del
  if !success && stalled_action != "REMOVE" then
    []
  else if stalled_action == "BLOCKLIST_AND_SEARCH" then
    if strStartsWith service_name "Sonarr" then
      if truthyOptList episode_ids then
        [Command.episodeSearch (episode_ids.getD [])]
      else if truthyOptInt series_id then
        [Command.seriesSearch (series_id.getD 0)]
      else
        []
    else if strStartsWith service_name "Radarr" && truthyOptInt movie_id then
      [Command.moviesSearch [movie_id.getD 0]]
    else
      []
  else
    []

/-- One row of the `stalled_downloads` table. -/
structure Row where
  download_id : String
  first_detected : Int
  arr_service : String
  deriving DecidableEq, Repr

/-- The `stalled_downloads` table contents. -/
abbrev Table := List Row

/-- The database: `none` models a database file in which the table was
never created (queries raise `sqlite3.OperationalError`). -/
abbrev DBState := Option Table

/-- `initialize_database` (src/main.py lines 37-52): returns immediately
when `STALLED_TIMEOUT == 0`, otherwise `CREATE TABLE IF NOT EXISTS`. -/
def init_database (stalled_timeout : Int) (st : DBState) : DBState :=
  if stalled_timeout == 0 then st else some (st.getD [])

/-- `get_stalled_downloads_from_db` (src/main.py lines 54-60): the
`{download_id : first_detected}` dict for one service; errors when the
table does not exist. -/
def get_stalled_downloads_from_db (st : DBState) (arr_service : String) :
    Except String (List (String × Int)) :=
  match st with
  | none => Except.error "no such table: stalled_downloads"
  | some rows =>
    Except.ok ((rows.filter (fun r => r.arr_service == arr_service)).map
      (fun r => (r.download_id, r.first_detected)))

/-- Whether a row with the given composite key is present. -/
def hasKey (rows : Table) (download_id arr_service : String) : Bool :=
  rows.any (fun r => r.download_id == download_id && r.arr_service == arr_service)

/-- `add_stalled_download_to_db` (src/main.py lines 62-72): `INSERT OR
IGNORE` under the `(download_id, arr_service)` primary key; the returned
Bool is `cursor.rowcount > 0` (whether a row was actually inserted). -/
def add_stalled_download_to_db (st : DBState) (download_id : String)
    (first_detected : Int) (arr_service : String) :
    Except String (DBState × Bool) :=
  match st with
  | none => Except.error "no such table: stalled_downloads"
  | some rows =>
    if hasKey rows download_id arr_service then
      Except.ok (some rows, false)
    else
      Except.ok (some (rows ++ [⟨download_id, first_detected, arr_service⟩]), true)

/-- `remove_stalled_download_from_db` (src/main.py lines 74-79). -/
def remove_stalled_download_from_db (st : DBState)
    (download_id arr_service : String) : Except String DBState :=
  match st with
  | none => Except.error "no such table: stalled_downloads"
  | some rows =>
    Except.ok (some (rows.filter
      (fun r => !(r.download_id == download_id && r.arr_service == arr_service))))

/-- One remediation performed by `check_queue_and_act`: the item acted on
and the commands its `perform_action` call POSTed. -/
structure Remediation where
  download_id : String
  commands : List Command
  deriving DecidableEq, Repr

/-- The body of the `for item in records` loop of `check_queue_and_act`
(src/main.py lines 198-243).  `db_stalled` is the dict snapshot read once
before the loop; `env` gives the outcome of the DELETE call for a given
download id.  A classified record with no `"id"` key raises `KeyError`. -/
def process_item (stalled_timeout : Int) (stalled_action : String)
    (env : String → DeleteOutcome) (service_name : String)
    (metadata_check : Bool) (db_stalled : List (String × Int)) (now : Int)
    (acc : DBState × List Remediation) (item : QueueItem) :
    Except String (DBState × List Remediation) :=
  if classify item metadata_check = false then
    Except.ok acc
  else
    match item.id with
    | none => Except.error "KeyError: id"
    | some i =>
      let download_id := toString i
      match db_stalled.lookup download_id with
      | some first_detected =>
        let elapsed := now - first_detected
        if elapsed > stalled_timeout then
          let cmds := perform_action stalled_action (env download_id)
            service_name item.movieId (extract_episode_ids item) item.seriesId
          match remove_stalled_download_from_db acc.1 download_id service_name with
          | Except.error e => Except.error e
          | Except.ok st2 => Except.ok (st2, acc.2 ++ [⟨download_id, cmds⟩])
        else
          Except.ok acc
      | none =>
        match add_stalled_download_to_db acc.1 download_id now service_name with
        | Except.error e => Except.error e
        | Except.ok (st2, _) => Except.ok (st2, acc.2)

/-- The `for item in records` loop of `check_queue_and_act`: items are
processed in order and an uncaught per-item exception aborts the loop
(there is no per-item handler in the source). -/
def process_loop (stalled_timeout : Int) (stalled_action : String)
    (env : String → DeleteOutcome) (service_name : String)
    (metadata_check : Bool) (db_stalled : List (String × Int)) (now : Int) :
    DBState × List Remediation → List QueueItem →
    Except String (DBState × List Remediation)
  | acc, [] => Except.ok acc
  | acc, item :: rest =>
    match process_item stalled_timeout stalled_action env service_name
        metadata_check db_stalled now acc item with
    | Except.error e => Except.error e
    | Except.ok acc2 =>
      process_loop stalled_timeout stalled_action env service_name
        metadata_check db_stalled now acc2 rest

/-- `check_queue_and_act` (src/main.py lines 173-243), past the fetch: an
empty record list returns immediately; otherwise the stalled dict for the
service is read once (raising if the table is missing) and every record
is processed in order. -/
def check_queue_and_act (stalled_timeout : Int) (stalled_action : String)
    (env : String → DeleteOutcome) (service_name : String)
    (metadata_check : Bool) (records : List QueueItem) (now : Int)
    (st : DBState) : Except String (DBState × List Remediation) :=
  if records.isEmpty then
    Except.ok (st, [])
  else
    match get_stalled_downloads_from_db st service_name with
    | Except.error e => Except.error e
    | Except.ok db_stalled =>
      process_loop stalled_timeout stalled_action env service_name
        metadata_check db_stalled now (st, []) records

/-- Response of one paged GET against the queue endpoint: `bad` models a
request error, a falsy/non-dict body, or a body with no `"records"` key
(every case in which the fetch loop breaks before reading records). -/
inductive PageResponse (α : Type) where
  | bad : PageResponse α
  | page (records : List α) (totalRecords : Option Int) : PageResponse α

/-- Result of `query_api_paginated`: the accumulated records, plus the log
of `(page, pageSize)` pairs requested, in order. -/
structure FetchResult (α : Type) where
  records : List α
  requests : List (Nat × Nat)
  deriving DecidableEq, Repr

/-- Python `if total_records and len(all_records) >= total_records`. -/
def totalReached (count : Nat) (total : Option Int) : Bool :=
  match total with
  | some v => v != 0 && decide (v ≤ (count : Int))
  | none => false

/-- Python `total_records = response.get("totalRecords", total_records)`:
a reported total overwrites the remembered one, an absent key keeps it. -/
def updateTotal (t total : Option Int) : Option Int :=
  match t with
  | some v => some v
  | none => total

/-- The `while True` loop of `query_api_paginated` (src/main.py lines
116-134), with explicit fuel (the Python loop is unbounded; every claim
is stated with enough fuel).  Carries the accumulator, the last seen
`totalRecords`, and the request log. -/
def paginate_loop {α : Type} (backend : Nat → Nat → PageResponse α)
    (page_size : Nat) : Nat → Nat → List α → Option Int →
    List (Nat × Nat) → FetchResult α
  | 0, _, acc, _, reqs => ⟨acc, reqs⟩
  | fuel + 1, page, acc, total, reqs =>
    match backend page page_size with
    | PageResponse.bad => ⟨acc, reqs ++ [(page, page_size)]⟩
    | PageResponse.page records t =>
      let total2 := updateTotal t total
      if records.isEmpty then
        ⟨acc, reqs ++ [(page, page_size)]⟩
      else if totalReached (acc ++ records).length total2 then
        ⟨acc ++ records, reqs ++ [(page, page_size)]⟩
      else
        paginate_loop backend page_size fuel (page + 1) (acc ++ records) total2
          (reqs ++ [(page, page_size)])

/-- `query_api_paginated` (src/main.py lines 111-135): starts at page 1
with nothing accumulated and no total seen. -/
def query_api_paginated {α : Type} (backend : Nat → Nat → PageResponse α)
    (page_size fuel : Nat) : FetchResult α :=
  paginate_loop backend page_size fuel 1 [] none []

/-- The call made by `check_queue_and_act`, using the default page size
50 (the `page_size=50` default parameter is never overridden). -/
def fetch_queue {α : Type} (backend : Nat → Nat → PageResponse α)
    (fuel : Nat) : FetchResult α :=
  query_api_paginated backend 50 fuel

/-- Synthetic backend for the pagination-completeness scenario: 120
records (numbered 0..119) served in pages of 50, `totalRecords = 120`. -/
def syntheticBackend (page _pageSize : Nat) : PageResponse Nat :=
  if page == 1 then PageResponse.page (List.range 50) (some 120)
  else if page == 2 then PageResponse.page ((List.range 50).map (fun n => n + 50)) (some 120)
  else if page == 3 then PageResponse.page ((List.range 20).map (fun n => n + 100)) (some 120)
  else PageResponse.page [] (some 120)

/-- One configured backend target as driven by the main loop: its service
label (e.g. "Radarr0") and its queue endpoint, a function from
(metadata_check, page, pageSize) to the page response. -/
structure BackendTarget where
  service_name : String
  backend : Bool → Nat → Nat → PageResponse QueueItem

/-- One `check_queue_and_act` call including its fetch (src/main.py lines
173-196): the records are whatever pagination accumulated. -/
def run_cycle (stalled_timeout : Int) (stalled_action : String)
    (env : String → DeleteOutcome) (t : BackendTarget)
    (metadata_check : Bool) (now : Int) (fuel : Nat) (st : DBState) :
    Except String (DBState × List Remediation) :=
  check_queue_and_act stalled_timeout stalled_action env t.service_name
    metadata_check ((fetch_queue (t.backend metadata_check) fuel).records) now st

/-- The per-target portion of the main loop: one Stalled-mode cycle, plus
a MetadataStuck-mode cycle when the flag is set, for each target in turn.
There is no per-target or per-item exception handler, so an error
propagates and aborts the remaining targets. -/
def sweep_loop (stalled_timeout : Int) (stalled_action : String)
    (env : String → DeleteOutcome) (count_metadata : Bool) (now : Int)
    (fuel : Nat) :
    DBState × List (String × List Remediation) → List BackendTarget →
    Except String (DBState × List (String × List Remediation))
  | acc, [] => Except.ok acc
  | acc, t :: rest =>
    match run_cycle stalled_timeout stalled_action env t false now fuel acc.1 with
    | Except.error e => Except.error e
    | Except.ok (st1, r1) =>
      if count_metadata then
        match run_cycle stalled_timeout stalled_action env t true now fuel st1 with
        | Except.error e => Except.error e
        | Except.ok (st2, r2) =>
          sweep_loop stalled_timeout stalled_action env count_metadata now fuel
            (st2, acc.2 ++ [(t.service_name, r1 ++ r2)]) rest
      else
        sweep_loop stalled_timeout stalled_action env count_metadata now fuel
          (st1, acc.2 ++ [(t.service_name, r1)]) rest

/-- One sweep of the `while True` body of `__main__` (src/main.py lines
250-263) across the configured targets. -/
def run_sweep (stalled_timeout : Int) (stalled_action : String)
    (env : String → DeleteOutcome) (count_metadata : Bool)
    (targets : List BackendTarget) (now : Int) (fuel : Nat) (st : DBState) :
    Except String (DBState × List (String × List Remediation)) :=
  sweep_loop stalled_timeout stalled_action env count_metadata now fuel
    (st, []) targets

/-! ## Helper lemmas -/

/-- `hasSub` decides contiguous-sublist membership. -/
theorem hasSub_iff (pat : List Char) :
    ∀ s : List Char, hasSub pat s = true ↔ pat <:+: s := by
  intro s
  induction s with
  | nil =>
    simp [hasSub, List.isEmpty_iff, List.infix_nil]
  | cons c t ih =>
    simp [hasSub, List.infix_cons_iff, ih, List.isPrefixOf_iff_prefix]

/-- A classified, already-tracked item whose elapsed time has not passed
the timeout is left untouched: no remediation, no store change. -/
theorem process_item_waits (stalled_timeout : Int) (stalled_action : String)
    (env : String → DeleteOutcome) (service_name : String) (metadata_check : Bool)
    (db_stalled : List (String × Int)) (now fd : Int) (item : QueueItem) (i : Int)
    (acc : DBState × List Remediation)
    (hcls : classify item metadata_check = true) (hid : item.id = some i)
    (hdb : db_stalled.lookup (toString i) = some fd)
    (h : now - fd ≤ stalled_timeout) :
    process_item stalled_timeout stalled_action env service_name metadata_check
      db_stalled now acc item = Except.ok acc := by
  simp [process_item, hcls, hid, hdb, show ¬(now - fd > stalled_timeout) from by omega]

/-- A classified, already-tracked item whose elapsed time exceeds the
timeout is remediated: `perform_action` decides the commands and the row
is removed from the store unconditionally. -/
theorem process_item_fires (stalled_timeout : Int) (stalled_action : String)
    (env : String → DeleteOutcome) (service_name : String) (metadata_check : Bool)
    (db_stalled : List (String × Int)) (now fd : Int) (item : QueueItem) (i : Int)
    (rows : Table) (rems : List Remediation)
    (hcls : classify item metadata_check = true) (hid : item.id = some i)
    (hdb : db_stalled.lookup (toString i) = some fd)
    (h : now - fd > stalled_timeout) :
    process_item stalled_timeout stalled_action env service_name metadata_check
      db_stalled now (some rows, rems) item =
      Except.ok
        (some (rows.filter
          (fun r => !(r.download_id == toString i && r.arr_service == service_name))),
         rems ++ [⟨toString i,
           perform_action stalled_action (env (toString i)) service_name
             item.movieId (extract_episode_ids item) item.seriesId⟩]) := by
  simp [process_item, hcls, hid, hdb, h, remove_stalled_download_from_db]

/-- A classified item not in the snapshot is inserted (no-op if the key
is already in the table) and produces no remediation. -/
theorem process_item_new (stalled_timeout : Int) (stalled_action : String)
    (env : String → DeleteOutcome) (service_name : String) (metadata_check : Bool)
    (db_stalled : List (String × Int)) (now : Int) (item : QueueItem) (i : Int)
    (rows : Table) (rems : List Remediation)
    (hcls : classify item metadata_check = true) (hid : item.id = some i)
    (hdb : db_stalled.lookup (toString i) = none) :
    process_item stalled_timeout stalled_action env service_name metadata_check
      db_stalled now (some rows, rems) item =
      Except.ok
        (if hasKey rows (toString i) service_name then some rows
         else some (rows ++ [⟨toString i, now, service_name⟩]), rems) := by
  by_cases hk : hasKey rows (toString i) service_name = true <;>
    simp [process_item, hcls, hid, hdb, add_stalled_download_to_db, hk]

/-- Any list of ids produced by `extract_episode_ids` is non-empty. -/
theorem extract_some_ne_nil (item : QueueItem) (ids : List Int)
    (h : extract_episode_ids item = some ids) : ids ≠ [] := by
  unfold extract_episode_ids episodeIds_fallback at h
  rcases item with ⟨_, _, _, _, _, eid, eids⟩
  cases eid with
  | some e =>
    by_cases he : e == 0
    · simp [he] at h
      cases eids with
      | some l =>
        simp at h
        rcases h with ⟨h1, h2⟩
        subst h2
        exact h1
      | none => simp at h
    · simp [he] at h
      subst h
      simp
  | none =>
    simp at h
    cases eids with
    | some l =>
      simp at h
      rcases h with ⟨h1, h2⟩
      subst h2
      exact h1
    | none => simp at h

/-- Shifting the starting page of a run of requests by one. -/
theorem range_map_shift (ps page n : Nat) :
    (List.range (n + 1)).map (fun j => (page + j, ps)) =
      (page, ps) :: (List.range n).map (fun j => (page + 1 + j, ps)) := by
  rw [List.range_succ_eq_map, List.map_cons, List.map_map]
  refine congrArg₂ _ (by simp) ?_
  apply List.map_congr_left
  intro j hj
  simp [Function.comp]
  omega

/-- The request log of the fetch loop is always a run of consecutive page
numbers starting at the initial page, all with the same page size. -/
theorem paginate_requests {α : Type} (backend : Nat → Nat → PageResponse α)
    (ps : Nat) :
    ∀ (fuel page : Nat) (acc : List α) (total : Option Int)
      (reqs : List (Nat × Nat)),
    ∃ n, (paginate_loop backend ps fuel page acc total reqs).requests =
      reqs ++ (List.range n).map (fun j => (page + j, ps)) := by
  intro fuel
  induction fuel with
  | zero =>
    intro page acc total reqs
    exact ⟨0, by simp [paginate_loop]⟩
  | succ f ih =>
    intro page acc total reqs
    cases hb : backend page ps with
    | bad =>
      refine ⟨1, ?_⟩
      simp [paginate_loop, hb]
      rfl
    | page records t =>
      by_cases hr : records.isEmpty
      · refine ⟨1, ?_⟩
        simp [paginate_loop, hb, hr]
        rfl
      · by_cases ht : totalReached (acc.length + records.length) (updateTotal t total) = true
        · refine ⟨1, ?_⟩
          simp [paginate_loop, hb, hr, ht]
          rfl
        · obtain ⟨n, hn⟩ := ih (page + 1) (acc ++ records) (updateTotal t total)
            (reqs ++ [(page, ps)])
          refine ⟨n + 1, ?_⟩
          have hstep : paginate_loop backend ps (f + 1) page acc total reqs =
              paginate_loop backend ps f (page + 1) (acc ++ records)
                (updateTotal t total) (reqs ++ [(page, ps)]) := by
            simp [paginate_loop, hb, hr, ht]
          rw [hstep, hn, range_map_shift]
          simp

/-! ## Claim theorems -/

/-- Claim C3: for a classified item already present in the Tracking Store,
remediation fires if and only if `elapsed = now - first_detected` is
strictly greater than STALLED_TIMEOUT: at `elapsed ≤ STALLED_TIMEOUT`
(in particular at exact equality) nothing happens, and strictly above it
the item is remediated. -/
theorem C3_debounce_strict_boundary (stalled_timeout : Int) (stalled_action : String)
    (env : String → DeleteOutcome) (service_name : String) (metadata_check : Bool)
    (db_stalled : List (String × Int)) (now fd : Int) (item : QueueItem) (i : Int)
    (rows : Table) (rems : List Remediation)
    (hcls : classify item metadata_check = true) (hid : item.id = some i)
    (hdb : db_stalled.lookup (toString i) = some fd) :
    (now - fd ≤ stalled_timeout →
      process_item stalled_timeout stalled_action env service_name metadata_check
        db_stalled now (some rows, rems) item = Except.ok (some rows, rems)) ∧
    (now - fd > stalled_timeout →
      process_item stalled_timeout stalled_action env service_name metadata_check
        db_stalled now (some rows, rems) item =
        Except.ok
          (some (rows.filter
            (fun r => !(r.download_id == toString i && r.arr_service == service_name))),
           rems ++ [⟨toString i,
             perform_action stalled_action (env (toString i)) service_name
               item.movieId (extract_episode_ids item) item.seriesId⟩])) := by
  constructor
  · intro h
    apply process_item_waits <;> assumption
  · intro h
    apply process_item_fires <;> assumption

/-- Concrete item for the C3 witness. -/
def itemC3 : QueueItem :=
  ⟨some 42, some "warning", some "Stalled with no connections", some 7, none, none, none⟩

/-- Witness for C3: timeout 900, elapsed exactly 900 waits; elapsed 901
fires and issues the Radarr movie search. -/
theorem C3_witness :
    process_item 900 "BLOCKLIST_AND_SEARCH" (fun _ => DeleteOutcome.ok) "Radarr0" false
      [("42", 0)] 900 (some [⟨"42", 0, "Radarr0"⟩], []) itemC3 =
      Except.ok (some [⟨"42", 0, "Radarr0"⟩], []) ∧
    process_item 900 "BLOCKLIST_AND_SEARCH" (fun _ => DeleteOutcome.ok) "Radarr0" false
      [("42", 0)] 901 (some [⟨"42", 0, "Radarr0"⟩], []) itemC3 =
      Except.ok (some [], [⟨"42", [Command.moviesSearch [7]]⟩]) := by
  constructor
  · exact (C3_debounce_strict_boundary 900 "BLOCKLIST_AND_SEARCH"
      (fun _ => DeleteOutcome.ok) "Radarr0" false [("42", 0)] 900 0 itemC3 42
      [⟨"42", 0, "Radarr0"⟩] [] (by decide) rfl rfl).1 (by decide)
  · have h := (C3_debounce_strict_boundary 900 "BLOCKLIST_AND_SEARCH"
      (fun _ => DeleteOutcome.ok) "Radarr0" false [("42", 0)] 901 0 itemC3 42
      [⟨"42", 0, "Radarr0"⟩] [] (by decide) rfl rfl).2 (by decide)
    rw [h]
    rfl

/-- Claim C1 (amended): under BLOCKLIST_AND_SEARCH a non-404 delete
failure suppresses the search command for that item, but the tracking
record does NOT remain: `check_queue_and_act` removes it unconditionally
right after `perform_action`, so the row is deleted from the store. -/
theorem C1_delete_failure_no_search_record_removed (stalled_timeout : Int)
    (env : String → DeleteOutcome) (service_name : String) (metadata_check : Bool)
    (db_stalled : List (String × Int)) (now fd : Int) (item : QueueItem) (i : Int)
    (rows : Table) (rems : List Remediation)
    (hcls : classify item metadata_check = true) (hid : item.id = some i)
    (hdb : db_stalled.lookup (toString i) = some fd)
    (hfail : env (toString i) = DeleteOutcome.otherError)
    (h : now - fd > stalled_timeout) :
    process_item stalled_timeout "BLOCKLIST_AND_SEARCH" env service_name metadata_check
      db_stalled now (some rows, rems) item =
      Except.ok
        (some (rows.filter
          (fun r => !(r.download_id == toString i && r.arr_service == service_name))),
         rems ++ [⟨toString i, []⟩]) := by
  have hf := process_item_fires stalled_timeout "BLOCKLIST_AND_SEARCH" env service_name
    metadata_check db_stalled now fd item i rows rems hcls hid hdb h
  rw [hf, hfail]
  rfl

/-- Concrete item for the C1 counterexample and witness. -/
def itemC1 : QueueItem :=
  ⟨some 42, some "warning", none, some 7, none, none, none⟩

/-- Claim C1 is false on the code as stated: at a concrete overdue item
whose delete fails with a non-404 error under BLOCKLIST_AND_SEARCH, the
cycle ends with the tracking record gone from the store (the run returns
the empty table), refuting "the tracking record remains". -/
theorem C1_counterexample :
    check_queue_and_act 900 "BLOCKLIST_AND_SEARCH" (fun _ => DeleteOutcome.otherError)
      "Radarr0" false [itemC1] 901 (some [⟨"42", 0, "Radarr0"⟩]) =
      Except.ok (some [], [⟨"42", []⟩]) ∧
    ¬ (∀ st2 rems, check_queue_and_act 900 "BLOCKLIST_AND_SEARCH"
        (fun _ => DeleteOutcome.otherError) "Radarr0" false [itemC1] 901
        (some [⟨"42", 0, "Radarr0"⟩]) = Except.ok (st2, rems) →
        hasKey (st2.getD []) "42" "Radarr0" = true) := by
  constructor
  · rfl
  · intro hclaim
    have h := hclaim (some []) [⟨"42", []⟩] rfl
    simp [hasKey] at h

/-- Witness for C1 (amended): the concrete failed-delete remediation
issues no command and removes the row. -/
theorem C1_witness :
    process_item 900 "BLOCKLIST_AND_SEARCH" (fun _ => DeleteOutcome.otherError)
      "Radarr0" false [("42", 0)] 901 (some [⟨"42", 0, "Radarr0"⟩], []) itemC1 =
      Except.ok (some [], [⟨"42", []⟩]) := by
  have h := C1_delete_failure_no_search_record_removed 900
    (fun _ => DeleteOutcome.otherError) "Radarr0" false [("42", 0)] 901 0 itemC1 42
    [⟨"42", 0, "Radarr0"⟩] [] (by decide) rfl rfl rfl (by decide)
  rw [h]
  rfl

/-- Claim C2 (amended): `delete_api` treats an HTTP 404 as a failure (it
returns false, not success), and under BLOCKLIST_AND_SEARCH a 404 on the
delete suppresses the search command exactly like any other delete
failure — not like a 200/204 success. -/
theorem C2_404_suppresses_search :
    delete_api DeleteOutcome.notFound404 = false ∧
    ∀ (service_name : String) (movie_id : Option Int)
      (episode_ids : Option (List Int)) (series_id : Option Int),
      perform_action "BLOCKLIST_AND_SEARCH" DeleteOutcome.notFound404 service_name
        movie_id episode_ids series_id = [] ∧
      perform_action "BLOCKLIST_AND_SEARCH" DeleteOutcome.notFound404 service_name
        movie_id episode_ids series_id =
      perform_action "BLOCKLIST_AND_SEARCH" DeleteOutcome.otherError service_name
        movie_id episode_ids series_id :=
  ⟨rfl, fun _ _ _ _ => ⟨rfl, rfl⟩⟩

/-- Claim C2 is false on the code: concretely, after a 404 delete no
search is issued under BLOCKLIST_AND_SEARCH, while after a 200/204 the
movie search is issued — not "exactly as after a 200/204 delete". -/
theorem C2_counterexample :
    perform_action "BLOCKLIST_AND_SEARCH" DeleteOutcome.notFound404 "Radarr0"
      (some 7) none none = [] ∧
    perform_action "BLOCKLIST_AND_SEARCH" DeleteOutcome.ok "Radarr0"
      (some 7) none none = [Command.moviesSearch [7]] ∧
    ([] : List Command) ≠ [Command.moviesSearch [7]] :=
  ⟨rfl, rfl, by decide⟩

/-- Claim C6: the classification rule — MetadataStuck mode holds iff the
lower-cased error message contains "downloading metadata"; Stalled mode
holds iff the lower-cased message contains "stalled" or "connection" or
the raw status equals "warning"; and warning status alone suffices even
with a non-matching message. -/
theorem C6_classify_characterization (item : QueueItem) :
    (classify item true = true ↔
      "downloading metadata".toList <:+:
        (lowerStr (item.errorMessage.getD "")).toList) ∧
    (classify item false = true ↔
      ("stalled".toList <:+: (lowerStr (item.errorMessage.getD "")).toList ∨
       "connection".toList <:+: (lowerStr (item.errorMessage.getD "")).toList ∨
       item.status = some "warning")) ∧
    (item.status = some "warning" → classify item false = true) := by
  refine ⟨?_, ?_, ?_⟩
  · simp [classify, strContains, hasSub_iff]
  · simp [classify, strContains, hasSub_iff, or_assoc]
  · intro h
    simp [classify, h]

/-- Concrete item for the C6 witness. -/
def itemC6 : QueueItem :=
  ⟨some 5, some "warning", some "some unrelated error text", none, none, none, none⟩

/-- Witness for C6: a warning-status item with a completely non-matching
message is still classified in Stalled mode. -/
theorem C6_witness : classify itemC6 false = true :=
  (C6_classify_characterization itemC6).2.2 rfl

/-- Number of rows carrying a given composite key. -/
def keyCount (rows : Table) (download_id arr_service : String) : Nat :=
  (rows.filter
    (fun r => r.download_id == download_id && r.arr_service == arr_service)).length

/-- Claim C7: inserting an existing `(download_id, backend_instance)` key
is a no-op — `first_detected` keeps its original value (the table is
returned unchanged), the insert-after-insert sequence reports `false`
(not a new detection), and the key count stays at one. -/
theorem C7_insert_idempotent (rows : Table) (d s : String) (t1 t2 : Int) :
    (hasKey rows d s = false →
      add_stalled_download_to_db (some rows) d t1 s =
        Except.ok (some (rows ++ [⟨d, t1, s⟩]), true)) ∧
    (hasKey rows d s = true →
      add_stalled_download_to_db (some rows) d t2 s =
        Except.ok (some rows, false)) ∧
    (∀ st1 b1, add_stalled_download_to_db (some rows) d t1 s = Except.ok (st1, b1) →
      add_stalled_download_to_db st1 d t2 s = Except.ok (st1, false)) ∧
    (∀ st1 b1, add_stalled_download_to_db (some rows) d t1 s = Except.ok (st1, b1) →
      keyCount rows d s ≤ 1 →
      ∃ rows1, st1 = some rows1 ∧ keyCount rows1 d s = 1) := by
  have hnewkey : hasKey (rows ++ [⟨d, t1, s⟩]) d s = true := by
    simp [hasKey]
  refine ⟨?_, ?_, ?_, ?_⟩
  · intro h
    simp [add_stalled_download_to_db, h]
  · intro h
    simp [add_stalled_download_to_db, h]
  · intro st1 b1 hadd
    by_cases hk : hasKey rows d s
    · simp [add_stalled_download_to_db, hk] at hadd
      rw [← hadd.1]
      simp [add_stalled_download_to_db, hk]
    · simp [add_stalled_download_to_db, hk] at hadd
      rw [← hadd.1]
      simp [add_stalled_download_to_db, hnewkey]
  · intro st1 b1 hadd hle
    by_cases hk : hasKey rows d s
    · simp [add_stalled_download_to_db, hk] at hadd
      refine ⟨rows, hadd.1.symm, ?_⟩
      have hpos : 0 < keyCount rows d s := by
        simp only [hasKey, List.any_eq_true] at hk
        obtain ⟨r, hr, hp⟩ := hk
        have : r ∈ rows.filter
            (fun r => r.download_id == d && r.arr_service == s) :=
          List.mem_filter.mpr ⟨hr, hp⟩
        simp only [keyCount]
        exact List.length_pos.mpr (List.ne_nil_of_mem this)
      omega
    · simp [add_stalled_download_to_db, hk] at hadd
      refine ⟨rows ++ [⟨d, t1, s⟩], hadd.1.symm, ?_⟩
      have hzero : keyCount rows d s = 0 := by
        simp only [keyCount, List.length_eq_zero]
        rw [List.filter_eq_nil_iff]
        intro a ha hpa
        apply hk
        simp only [hasKey, List.any_eq_true]
        exact ⟨a, ha, hpa⟩
      have hsplit : keyCount (rows ++ [⟨d, t1, s⟩]) d s =
          keyCount rows d s + keyCount [⟨d, t1, s⟩] d s := by
        simp [keyCount, List.filter_append]
      rw [hsplit, hzero]
      simp [keyCount]

/-- Witness for C7: inserting key ("42","Radarr0") at time 100 into an
empty table, then again at time 200: the row keeps `first_detected = 100`
and the second insert reports `false`. -/
theorem C7_witness :
    add_stalled_download_to_db (some []) "42" 100 "Radarr0" =
      Except.ok (some [⟨"42", 100, "Radarr0"⟩], true) ∧
    add_stalled_download_to_db (some [⟨"42", 100, "Radarr0"⟩]) "42" 200 "Radarr0" =
      Except.ok (some [⟨"42", 100, "Radarr0"⟩], false) := by
  have h := C7_insert_idempotent [] "42" "Radarr0" 100 200
  have h1 := h.1 rfl
  refine ⟨h1, ?_⟩
  have h3 := h.2.2.1 (some [⟨"42", 100, "Radarr0"⟩]) true h1
  exact h3

/-- Concrete classified item for the C4 evaluation. -/
def itemC4 : QueueItem :=
  ⟨some 1, some "warning", some "stalled", none, none, none, none⟩

/-- Claim C4 evaluated at the failing input: with `STALLED_TIMEOUT = 0`
database initialization is skipped (the table is never created), and the
first cycle that fetches a non-empty queue page fails when reading the
store — the engine DOES require store initialization.  With a non-zero
timeout the identical cycle succeeds, isolating the skipped
initialization as the cause. -/
theorem C4_uninitialized_store_error :
    init_database 0 none = none ∧
    check_queue_and_act 0 "BLOCKLIST_AND_SEARCH" (fun _ => DeleteOutcome.ok)
      "Radarr0" false [itemC4] 0 (init_database 0 none) =
      Except.error "no such table: stalled_downloads" ∧
    check_queue_and_act 900 "BLOCKLIST_AND_SEARCH" (fun _ => DeleteOutcome.ok)
      "Radarr0" false [itemC4] 0 (init_database 900 none) =
      Except.ok (some [⟨"1", 0, "Radarr0"⟩], []) :=
  ⟨rfl, rfl, rfl⟩

/-- Claim C9: search routing for a SeriesManager backend after a
successful delete under BLOCKLIST_AND_SEARCH.  The extracted episode ids
are a truthy `episodeId` wrapped as a singleton, else a truthy
`episodeIds` list; any extracted list is non-empty and yields exactly one
EpisodeSearch with exactly those ids (never a SeriesSearch); with no
episode ids and a (truthy) series id, exactly one SeriesSearch; with
neither, no command at all. -/
theorem C9_sonarr_search_routing (s : String) (mv : Option Int) (item : QueueItem)
    (hs : strStartsWith s "Sonarr" = true) :
    (∀ e, item.episodeId = some e → e ≠ 0 → extract_episode_ids item = some [e]) ∧
    (∀ l, truthyOptInt item.episodeId = false → item.episodeIds = some l →
       l ≠ [] → extract_episode_ids item = some l) ∧
    (∀ ids, extract_episode_ids item = some ids →
       ids ≠ [] ∧
       perform_action "BLOCKLIST_AND_SEARCH" DeleteOutcome.ok s mv (some ids)
         item.seriesId = [Command.episodeSearch ids]) ∧
    (∀ sid, extract_episode_ids item = none → item.seriesId = some sid → sid ≠ 0 →
       perform_action "BLOCKLIST_AND_SEARCH" DeleteOutcome.ok s mv none
         (some sid) = [Command.seriesSearch sid]) ∧
    (extract_episode_ids item = none → item.seriesId = none →
       perform_action "BLOCKLIST_AND_SEARCH" DeleteOutcome.ok s mv none none = []) := by
  refine ⟨?_, ?_, ?_, ?_, ?_⟩
  · intro e he hne
    simp [extract_episode_ids, he, hne]
  · intro l hfalsy hl hlne
    cases hei : item.episodeId with
    | some e =>
      have he0 : e = 0 := by
        simp [truthyOptInt, hei] at hfalsy
        exact hfalsy
      simp [extract_episode_ids, hei, he0, episodeIds_fallback, hl, hlne]
    | none =>
      simp [extract_episode_ids, hei, episodeIds_fallback, hl, hlne]
  · intro ids hext
    have hne := extract_some_ne_nil item ids hext
    have hemp : ids.isEmpty = false := by
      simpa [List.isEmpty_iff] using hne
    refine ⟨hne, ?_⟩
    simp [perform_action, delete_api, hs, truthyOptList, hemp]
  · intro sid hext hsid hne
    simp [perform_action, delete_api, hs, truthyOptList, truthyOptInt, hne]
  · intro hext hsid
    simp [perform_action, delete_api, hs, truthyOptList, truthyOptInt]

/-- Concrete Sonarr season-pack item for the C9 witness. -/
def itemC9 : QueueItem :=
  ⟨some 42, some "warning", some "stalled", none, some 5, none, some [10, 11]⟩

/-- Concrete Sonarr item with no episode ids for the C9 witness. -/
def itemC9b : QueueItem :=
  ⟨some 43, some "warning", some "stalled", none, some 5, none, none⟩

/-- Witness for C9: `episodeIds=[10,11], seriesId=5` routes to exactly
one EpisodeSearch with `[10,11]`; no episode ids with `seriesId=5`
routes to one SeriesSearch for 5. -/
theorem C9_witness :
    extract_episode_ids itemC9 = some [10, 11] ∧
    perform_action "BLOCKLIST_AND_SEARCH" DeleteOutcome.ok "Sonarr0" none
      (some [10, 11]) (some 5) = [Command.episodeSearch [10, 11]] ∧
    perform_action "BLOCKLIST_AND_SEARCH" DeleteOutcome.ok "Sonarr0" none
      none (some 5) = [Command.seriesSearch 5] := by
  have h := C9_sonarr_search_routing "Sonarr0" none itemC9 (by decide)
  have hext : extract_episode_ids itemC9 = some [10, 11] :=
    h.2.1 [10, 11] rfl rfl (by decide)
  have hb := C9_sonarr_search_routing "Sonarr0" none itemC9b (by decide)
  exact ⟨hext, (h.2.2.1 [10, 11] hext).2, hb.2.2.2.1 5 rfl rfl (by decide)⟩

set_option maxRecDepth 10000 in
/-- Claim C8: the Queue Fetcher requests fixed page size 50 and advances
the page number by 1 each round (the request log is always pages 1..n at
size 50); it returns what was accumulated so far on any errored or
malformed response and on an empty page; it stops once the accumulated
count reaches a truthy server-reported total; and on the synthetic
backend reporting `totalRecords = 120` over pages of 50 it returns
exactly the 120 records in 3 fetch rounds. -/
theorem C8_pagination :
    (∀ (α : Type) (backend : Nat → Nat → PageResponse α) (fuel : Nat),
       ∃ n, (fetch_queue backend fuel).requests =
         (List.range n).map (fun j => (1 + j, 50))) ∧
    (∀ (α : Type) (backend : Nat → Nat → PageResponse α) (ps fuel page : Nat)
       (acc : List α) (total : Option Int) (reqs : List (Nat × Nat)),
       backend page ps = PageResponse.bad →
       paginate_loop backend ps (fuel + 1) page acc total reqs =
         ⟨acc, reqs ++ [(page, ps)]⟩) ∧
    (∀ (α : Type) (backend : Nat → Nat → PageResponse α) (ps fuel page : Nat)
       (acc : List α) (total t : Option Int) (reqs : List (Nat × Nat)),
       backend page ps = PageResponse.page [] t →
       paginate_loop backend ps (fuel + 1) page acc total reqs =
         ⟨acc, reqs ++ [(page, ps)]⟩) ∧
    (∀ (α : Type) (backend : Nat → Nat → PageResponse α) (ps fuel page : Nat)
       (acc records : List α) (total t : Option Int) (v : Int)
       (reqs : List (Nat × Nat)),
       backend page ps = PageResponse.page records t →
       records ≠ [] → updateTotal t total = some v → v ≠ 0 →
       ((acc ++ records).length : Int) ≥ v →
       paginate_loop backend ps (fuel + 1) page acc total reqs =
         ⟨acc ++ records, reqs ++ [(page, ps)]⟩) ∧
    ((fetch_queue syntheticBackend 10).records = List.range 120 ∧
     (fetch_queue syntheticBackend 10).requests = [(1, 50), (2, 50), (3, 50)]) := by
  refine ⟨?_, ?_, ?_, ?_, by decide, by decide⟩
  · intro α backend fuel
    obtain ⟨n, hn⟩ := paginate_requests backend 50 fuel 1 [] none []
    exact ⟨n, by simpa using hn⟩
  · intro α backend ps fuel page acc total reqs hb
    simp [paginate_loop, hb]
  · intro α backend ps fuel page acc total t reqs hb
    simp [paginate_loop, hb]
  · intro α backend ps fuel page acc records total t v reqs hb hne hupd hv hge
    have hemp : records.isEmpty = false := by
      simpa [List.isEmpty_iff] using hne
    have hlen : (acc ++ records).length = acc.length + records.length :=
      List.length_append _ _
    have hreach : totalReached (acc.length + records.length)
        (updateTotal t total) = true := by
      simp [totalReached, hupd, hv]
      omega
    simp [paginate_loop, hb, hemp, hreach]

set_option maxRecDepth 10000 in
/-- Witness for C8: a bad first response returns the (empty) accumulation
after one request, and reaching the reported total of 120 on page 3 stops
with the accumulated 120 records. -/
theorem C8_witness :
    paginate_loop (fun (_ _ : Nat) => (PageResponse.bad : PageResponse Nat))
      50 1 1 [] none [] = ⟨[], [(1, 50)]⟩ ∧
    paginate_loop syntheticBackend 50 1 3 (List.range 100) (some 120) [] =
      ⟨List.range 100 ++ (List.range 20).map (fun n => n + 100), [(3, 50)]⟩ := by
  constructor
  · exact C8_pagination.2.1 Nat _ 50 0 1 [] none [] rfl
  · exact C8_pagination.2.2.2.1 Nat syntheticBackend 50 0 3 (List.range 100)
      ((List.range 20).map (fun n => n + 100)) (some 120) (some 120) 120 []
      rfl (by decide) rfl (by decide) (by decide)

/-- Claim C10: the Tracking Store key is `(download_id, service)` with no
check-mode component.  A cycle in any mode `m1` that first classifies an
item inserts the single row keyed by the id and service; a later cycle in
any mode `m2` (same or different) reads the very same row, so elapsed
time accrues from the original `first_detected` — below the timeout the
single row survives unchanged (never two rows), above it that same
remediation fires and removes it. -/
theorem C10_store_key_mode_agnostic (m1 m2 : Bool) (item1 item2 : QueueItem)
    (i : Int) (s A : String) (env : String → DeleteOutcome) (T t1 t2 : Int)
    (h1 : classify item1 m1 = true) (hid1 : item1.id = some i)
    (h2 : classify item2 m2 = true) (hid2 : item2.id = some i) :
    check_queue_and_act T A env s m1 [item1] t1 (some []) =
      Except.ok (some [⟨toString i, t1, s⟩], []) ∧
    (t2 - t1 ≤ T →
      check_queue_and_act T A env s m2 [item2] t2 (some [⟨toString i, t1, s⟩]) =
        Except.ok (some [⟨toString i, t1, s⟩], [])) ∧
    (t2 - t1 > T →
      check_queue_and_act T A env s m2 [item2] t2 (some [⟨toString i, t1, s⟩]) =
        Except.ok (some [], [⟨toString i,
          perform_action A (env (toString i)) s item2.movieId
            (extract_episode_ids item2) item2.seriesId⟩])) := by
  have hget2 : get_stalled_downloads_from_db (some [⟨toString i, t1, s⟩]) s =
      Except.ok [(toString i, t1)] := by
    simp [get_stalled_downloads_from_db]
  have hdb2 : List.lookup (toString i) [(toString i, t1)] = some t1 := by
    simp [List.lookup]
  refine ⟨?_, ?_, ?_⟩
  · have key1 : process_item T A env s m1 [] t1 (some [], []) item1 =
        Except.ok (some [⟨toString i, t1, s⟩], []) := by
      have hnew := process_item_new T A env s m1 [] t1 item1 i [] [] h1 hid1 rfl
      simpa [hasKey] using hnew
    simp [check_queue_and_act, get_stalled_downloads_from_db, process_loop, key1]
  · intro h
    have key2 : process_item T A env s m2 [(toString i, t1)] t2
        (some [⟨toString i, t1, s⟩], []) item2 =
        Except.ok (some [⟨toString i, t1, s⟩], []) :=
      process_item_waits T A env s m2 [(toString i, t1)] t2 t1 item2 i
        (some [⟨toString i, t1, s⟩], []) h2 hid2 hdb2 h
    simp [check_queue_and_act, hget2, process_loop, key2]
  · intro h
    have key3 := process_item_fires T A env s m2 [(toString i, t1)] t2 t1 item2 i
      [⟨toString i, t1, s⟩] [] h2 hid2 hdb2 h
    simp [check_queue_and_act, hget2, process_loop, key3]

/-- Concrete items for the C10 witness: the same download id 7 classified
once in Stalled mode and once in MetadataStuck mode. -/
def itemC10a : QueueItem :=
  ⟨some 7, some "warning", none, none, none, none, none⟩

/-- MetadataStuck-mode sibling of `itemC10a` with the same id. -/
def itemC10b : QueueItem :=
  ⟨some 7, some "queued", some "qBittorrent is downloading metadata", none,
    none, none, none⟩

/-- Witness for C10: the row created by a Stalled-mode cycle at t=0 is
read by a MetadataStuck-mode cycle — at t=900 (timeout 900) it survives
unchanged with its original timestamp; at t=901 the cross-mode cycle
fires the remediation on it. -/
theorem C10_witness :
    check_queue_and_act 900 "REMOVE" (fun _ => DeleteOutcome.ok) "Sonarr0"
      false [itemC10a] 0 (some []) =
      Except.ok (some [⟨"7", 0, "Sonarr0"⟩], []) ∧
    check_queue_and_act 900 "REMOVE" (fun _ => DeleteOutcome.ok) "Sonarr0"
      true [itemC10b] 900 (some [⟨"7", 0, "Sonarr0"⟩]) =
      Except.ok (some [⟨"7", 0, "Sonarr0"⟩], []) ∧
    check_queue_and_act 900 "REMOVE" (fun _ => DeleteOutcome.ok) "Sonarr0"
      true [itemC10b] 901 (some [⟨"7", 0, "Sonarr0"⟩]) =
      Except.ok (some [], [⟨"7", []⟩]) := by
  have h := C10_store_key_mode_agnostic false true itemC10a itemC10b 7 "Sonarr0"
    "REMOVE" (fun _ => DeleteOutcome.ok) 900 0 900 (by decide) rfl (by decide) rfl
  have h2 := C10_store_key_mode_agnostic false true itemC10a itemC10b 7 "Sonarr0"
    "REMOVE" (fun _ => DeleteOutcome.ok) 900 0 901 (by decide) rfl (by decide) rfl
  refine ⟨h.1, h.2.1 (by decide), ?_⟩
  have h3 := h2.2.2 (by decide)
  exact h3.trans (by rfl)

/-- Claim C5 (amended): fetch failures ARE isolated — a target whose
queue fetch errors yields an empty record list and the sweep proceeds to
the remaining targets unharmed — but an uncaught error while processing a
single item (here a classified record with no id key) is NOT isolated: it
aborts the remaining items of that cycle, the remaining targets, and the
whole sweep. -/
theorem C5_mixed_failure_isolation :
    (∀ (T : Int) (A : String) (env : String → DeleteOutcome)
       (t1 t2 : BackendTarget) (now : Int) (fuel : Nat) (st : DBState),
       t1.backend false 1 50 = PageResponse.bad →
       run_sweep T A env false [t1, t2] now fuel st =
         (run_cycle T A env t2 false now fuel st).map
           (fun p => (p.1, [(t1.service_name, ([] : List Remediation)),
             (t2.service_name, p.2)]))) ∧
    (∀ (T : Int) (A : String) (env : String → DeleteOutcome)
       (t1 t2 : BackendTarget) (now : Int) (fuel : Nat) (rows : Table)
       (it : QueueItem) (rest : List QueueItem),
       (fetch_queue (t1.backend false) fuel).records = it :: rest →
       classify it false = true → it.id = none →
       run_sweep T A env false [t1, t2] now fuel (some rows) =
         Except.error "KeyError: id") := by
  constructor
  · intro T A env t1 t2 now fuel st hbad
    have hfetch : (fetch_queue (t1.backend false) fuel).records = [] := by
      cases fuel with
      | zero => rfl
      | succ f => simp [fetch_queue, query_api_paginated, paginate_loop, hbad]
    have hcyc1 : run_cycle T A env t1 false now fuel st = Except.ok (st, []) := by
      simp [run_cycle, hfetch, check_queue_and_act]
    simp only [run_sweep, sweep_loop, hcyc1]
    cases hc : run_cycle T A env t2 false now fuel st with
    | error e => simp [sweep_loop, hc, Except.map]
    | ok p =>
      cases p with
      | mk st2 r2 => simp [sweep_loop, hc, Except.map]
  · intro T A env t1 t2 now fuel rows it rest hrec hcls hid
    have hpi : process_item T A env t1.service_name false
        ((rows.filter (fun r => r.arr_service == t1.service_name)).map
          (fun r => (r.download_id, r.first_detected))) now
        (some rows, []) it = Except.error "KeyError: id" := by
      simp [process_item, hcls, hid]
    have hcyc1 : run_cycle T A env t1 false now fuel (some rows) =
        Except.error "KeyError: id" := by
      simp [run_cycle, hrec, check_queue_and_act, get_stalled_downloads_from_db,
        process_loop, hpi]
    simp [run_sweep, sweep_loop, hcyc1]

/-- Classified record with no id key, used for the C5 counterexample. -/
def itemC5bad : QueueItem :=
  ⟨none, some "warning", none, none, none, none, none⟩

/-- Overdue healthy record, used for the C5 counterexample. -/
def itemC5good : QueueItem :=
  ⟨some 2, some "warning", none, some 9, none, none, none⟩

/-- First target of the C5 counterexample: its queue page contains the
bad record followed by the overdue good one. -/
def t1C5 : BackendTarget :=
  ⟨"Radarr0", fun _ page _ =>
    if page == 1 then PageResponse.page [itemC5bad, itemC5good] (some 2)
    else PageResponse.page [] none⟩

/-- Second target of the C5 counterexample: one overdue good record. -/
def t2C5 : BackendTarget :=
  ⟨"Radarr1", fun _ page _ =>
    if page == 1 then PageResponse.page [itemC5good] (some 1)
    else PageResponse.page [] none⟩

/-- Claim C5 is false on the code at a concrete input: the first item of
the first target's cycle raises KeyError and the whole sweep errors out —
the overdue second item of that cycle and the entire second target are
never processed (no remediation, no store change, no outputs). -/
theorem C5_counterexample :
    run_sweep 900 "BLOCKLIST_AND_SEARCH" (fun _ => DeleteOutcome.ok) false
      [t1C5, t2C5] 1000 5
      (some [⟨"2", 0, "Radarr0"⟩, ⟨"2", 0, "Radarr1"⟩]) =
      Except.error "KeyError: id" := by
  rfl

/-- Bad-fetch target used by the C5 witness. -/
def t1C5w : BackendTarget :=
  ⟨"Radarr0", fun _ _ _ => PageResponse.bad⟩

/-- Witness for C5 (amended): a fetch failure on the first target leaves
the second target's cycle intact, while the no-id item on the first
target aborts the whole sweep. -/
theorem C5_witness :
    run_sweep 900 "BLOCKLIST_AND_SEARCH" (fun _ => DeleteOutcome.ok) false
      [t1C5w, t2C5] 0 3 (some []) =
      (run_cycle 900 "BLOCKLIST_AND_SEARCH" (fun _ => DeleteOutcome.ok) t2C5
          false 0 3 (some [])).map
        (fun p => (p.1, [("Radarr0", ([] : List Remediation)),
          ("Radarr1", p.2)])) ∧
    run_sweep 900 "BLOCKLIST_AND_SEARCH" (fun _ => DeleteOutcome.ok) false
      [t1C5, t2C5] 0 3 (some []) = Except.error "KeyError: id" := by
  constructor
  · exact C5_mixed_failure_isolation.1 900 "BLOCKLIST_AND_SEARCH"
      (fun _ => DeleteOutcome.ok) t1C5w t2C5 0 3 (some []) rfl
  · exact C5_mixed_failure_isolation.2 900 "BLOCKLIST_AND_SEARCH"
      (fun _ => DeleteOutcome.ok) t1C5 t2C5 0 3 [] itemC5bad [itemC5good]
      rfl (by decide) rfl

end ArrStalled
